import Mathlib

/-!
Verification of the synthesis-orchestration pipeline of the `ai-code-genius`
repository against its specification.

The development shallowly embeds the Python source:

* `src/model/deepseek.py` (whose tail, containing `_parse_project_files`,
  is stored in the repository under a mangled file name): the delimited
  multi-file parser `_parse_project_files`.
* `src/model/advanced_genius.py`: `_check_quality`, `_design_structure`,
  `_generate_file`, `_regenerate_with_feedback`,
  `_generate_comprehensive_tests`, `_clean_code`, and the per-file loop of
  `generate_with_planning`.

Python strings are embedded as Lean `String` (a list of Unicode code points,
matching Python `str` semantics for `len`, indexing-free operations,
`split`, `join`, `replace`, `strip`, `startswith`, `endswith`, `in`).
The string helpers below (`pySplitChar`, `pyJoinLines`, `pyReplaceS`,
`pyStripS`, `pyStartsWith`, `pyEndsWith`, `pyIn`) are executable models of
the corresponding Python `str` methods, written as structural recursions on
the code-point list so that concrete inputs evaluate inside the kernel.
The Python dict (3.7+ insertion-ordered) is embedded as an association list
with the standard first-occurrence-update / append-if-absent assignment
(`dictSet`), and dict lookup as `pyLookup`.
-/

/-! ## Python string primitives -/

/-- The lines of a Python string, i.e. `text.split('\n')`: split at every
occurrence of the separator, keeping empty pieces; the empty string yields
one empty line, as in Python. `List.splitOn` has exactly these semantics
for a single-element separator. -/
def stringLines (s : String) : List String :=
  (s.data.splitOn '\n').map fun l => (⟨l⟩ : String)

/-- Model of Python `'\n'.join(lines)`. -/
def pyJoinLines (ls : List String) : String :=
  ⟨List.intercalate ['\n'] (ls.map String.data)⟩

/-- Model of Python `s.startswith(pre)`. -/
def pyStartsWith (s pre : String) : Bool :=
  pre.data.isPrefixOf s.data

/-- Model of Python `s.endswith(suf)`. -/
def pyEndsWith (s suf : String) : Bool :=
  suf.data.isSuffixOf s.data

/-- Model of Python `needle in hay` (substring containment). -/
def pyInAux (n : List Char) : List Char → Bool
  | [] => n.isEmpty
  | c :: t => n.isPrefixOf (c :: t) || pyInAux n t

/-- Model of Python `needle in hay` on strings. -/
def pyIn (needle hay : String) : Bool :=
  pyInAux needle.data hay.data

/-- The ASCII whitespace stripped by Python `str.strip()` (the Unicode
whitespace beyond ASCII that Python would also strip never occurs in the
strings this development manipulates). -/
def isPySpace (c : Char) : Bool :=
  c == ' ' || c == '\t' || c == '\n' || c == '\r' || c == '\x0b' || c == '\x0c'

/-- Model of Python `s.strip()`: drop leading and trailing whitespace. -/
def pyStripS (s : String) : String :=
  ⟨((s.data.dropWhile isPySpace).reverse.dropWhile isPySpace).reverse⟩

/-- Fuel-driven scan implementing Python `s.replace(old, new)` for nonempty
`old`: left-to-right, non-overlapping, all occurrences. The fuel is the
length of the remaining input, which bounds the number of steps. -/
def pyReplaceAux (old new : List Char) : Nat → List Char → List Char
  | 0, s => s
  | fuel + 1, s =>
    if !old.isEmpty && old.isPrefixOf s then
      new ++ pyReplaceAux old new fuel (s.drop old.length)
    else
      match s with
      | [] => []
      | x :: rest => x :: pyReplaceAux old new fuel rest

/-- Model of Python `s.replace(old, new)`. -/
def pyReplaceS (s old new : String) : String :=
  ⟨pyReplaceAux old.data new.data s.data.length s.data⟩

/-- Python truthiness of the `current_file` variable of
`_parse_project_files`, which holds either `None` or a string: `None` and
the empty string are falsy. -/
def pyTruthy : Option String → Bool
  | none => false
  | some s => !(s == "")

/-! ## Python dict as an insertion-ordered association list

Python 3.7+ dicts preserve insertion order; `d[k] = v` overwrites the value
in place when `k` is present (keeping the key's original position) and
appends a new entry otherwise. -/

/-- Model of Python `d[k] = v` on an insertion-ordered dict. -/
def dictSet : List (String × String) → String → String → List (String × String)
  | [], k, v => [(k, v)]
  | e :: rest, k, v => if e.1 == k then (k, v) :: rest else e :: dictSet rest k v

/-- Model of Python `d[k]` / `d.get(k)` as an `Option`. -/
def pyLookup (d : List (String × String)) (k : String) : Option String :=
  (d.find? fun e => e.1 == k).map fun e => e.2

/-! ## The delimited multi-file parser `_parse_project_files`

Source (`src/model/deepseek.py`, continuation file):

```
def _parse_project_files(self, generated_text: str) -> Dict[str, str]:
    files = {}
    current_file = None
    current_content = []
    for line in generated_text.split('\n'):
        if line.startswith('=== DOSYA:'):
            if current_file:
                files[current_file] = '\n'.join(current_content)
            current_file = line.replace('=== DOSYA:', '').replace('===', '').strip()
            current_content = []
        elif line.startswith('=== DOSYA SONU ==='):
            if current_file:
                files[current_file] = '\n'.join(current_content)
            current_file = None
            current_content = []
        elif current_file:
            current_content.append(line)
    return files
```

Note that the loop carries no flush after the final line: whatever is in
`current_file`/`current_content` at end of stream is dropped. -/

/-- The literal start-of-file marker tag checked by the parser. -/
def startTag : String := "=== DOSYA:"

/-- The literal end-of-file marker line checked by the parser. -/
def endTag : String := "=== DOSYA SONU ==="

/-- `line.startswith('=== DOSYA:')`. -/
def isStartLine (line : String) : Bool := pyStartsWith line startTag

/-- `line.startswith('=== DOSYA SONU ===')`. -/
def isEndLine (line : String) : Bool := pyStartsWith line endTag

/-- `line.replace('=== DOSYA:', '').replace('===', '').strip()`. -/
def extractPath (line : String) : String :=
  pyStripS (pyReplaceS (pyReplaceS line startTag "") "===" "")

/-- The loop state of `_parse_project_files`: `current_file`,
`current_content`, and the accumulated `files` dict. -/
structure ParseState where
  cur : Option String
  acc : List String
  files : List (String × String)
deriving DecidableEq

/-- The initial loop state: `files = {}`, `current_file = None`,
`current_content = []`. -/
def initParseState : ParseState := ⟨none, [], []⟩

/-- Save the current file into the dict, guarded by Python truthiness of
`current_file` (the `if current_file:` in both marker branches). -/
def saveCurrent (st : ParseState) : List (String × String) :=
  match st.cur with
  | some p => if p == "" then st.files else dictSet st.files p (pyJoinLines st.acc)
  | none => st.files

/-- One iteration of the `for line in generated_text.split('\n')` loop. -/
def parseLine (st : ParseState) (line : String) : ParseState :=
  if isStartLine line then
    { cur := some (extractPath line), acc := [], files := saveCurrent st }
  else if isEndLine line then
    { cur := none, acc := [], files := saveCurrent st }
  else if pyTruthy st.cur then
    { st with acc := st.acc ++ [line] }
  else st

/-- `_parse_project_files`: run the loop over the lines and return `files`.
There is no flush of the current file at end of stream. -/
def _parse_project_files (generated_text : String) : List (String × String) :=
  ((stringLines generated_text).foldl parseLine initParseState).files

/-- The exact start-marker line the delimited protocol prescribes for a
path, `=== DOSYA: <path> ===` (the template shown to the backend in
`generate_project`). -/
def mkStartLine (p : String) : String := "=== DOSYA: " ++ p ++ " ==="

/-- Serialization of one `(path, content)` pair under the delimited
protocol, at line granularity: start marker line, the content's lines,
end marker line. -/
def serializePair (e : String × String) : List String :=
  mkStartLine e.1 :: stringLines e.2 ++ [endTag]

/-- Line-level serialization of a list of `(path, content)` pairs. -/
def serializeLines (pairs : List (String × String)) : List String :=
  pairs.flatMap serializePair

/-- Serialization of a list of `(path, content)` pairs into a single
delimited text stream. -/
def serializeBundle (pairs : List (String × String)) : String :=
  pyJoinLines (serializeLines pairs)

/-- A path is marker-safe when it is nonempty (Python-truthy), survives the
parser's path extraction from its own start-marker line, that line is
recognized as a start marker, and the path contains no newline (so its
marker occupies exactly one line of the stream). -/
def PathOk (p : String) : Prop :=
  p ≠ "" ∧ extractPath (mkStartLine p) = p ∧ isStartLine (mkStartLine p) = true ∧
    '\n' ∉ p.data

instance : DecidablePred PathOk := fun _ => by unfold PathOk; infer_instance

/-- A content string is marker-safe when none of its lines looks like a
start or end marker. -/
def ContentOk (c : String) : Prop :=
  ∀ l ∈ stringLines c, isStartLine l = false ∧ isEndLine l = false

instance : DecidablePred ContentOk := fun _ => by unfold ContentOk; infer_instance

/-! ## `advanced_genius.py`: configuration and quality gate -/

/-- The constructor-set attributes of `AdvancedCodeGenius.__init__`
(`src/model/advanced_genius.py`): `self.quality_threshold = 0.9`,
`self.max_retries = 3`. Python floats are embedded as exact rationals. -/
structure AdvancedCodeGenius where
  quality_threshold : ℚ
  max_retries : ℕ

/-- The instance produced by `__init__`. -/
def mkAdvancedCodeGenius : AdvancedCodeGenius := ⟨0.9, 3⟩

/-- `'"""' in code or "'''" in code` (the second docstring delimiter is three
apostrophes, written here with character escapes). -/
def has_docstrings (code : String) : Bool :=
  pyIn "\"\"\"" code || pyIn "\x27\x27\x27" code

/-- `'->' in code or ': ' in code`. -/
def has_type_hints (code : String) : Bool :=
  pyIn "->" code || pyIn ": " code

/-- `'try:' in code or 'except' in code`. -/
def has_error_handling (code : String) : Bool :=
  pyIn "try:" code || pyIn "except" code

/-- `len(code) > 100` (Python `len` counts code points, as does
`String.data.length`). -/
def reasonable_length (code : String) : Bool :=
  decide (100 < code.data.length)

/-- `'TODO' not in code and 'FIXME' not in code`. -/
def no_placeholder (code : String) : Bool :=
  !(pyIn "TODO" code) && !(pyIn "FIXME" code)

/-- The `checks` dict of `_check_quality`, as the list of its five boolean
values in source order. -/
def qualityChecks (code : String) : List Bool :=
  [has_docstrings code, has_type_hints code, has_error_handling code,
    reasonable_length code, no_placeholder code]

/-- The keys of the `checks` dict of `_check_quality` whose predicate fails
on `code` — the qualities missing from a generated attempt. -/
def failedChecks (code : String) : List String :=
  (if has_docstrings code then [] else ["has_docstrings"]) ++
  (if has_type_hints code then [] else ["has_type_hints"]) ++
  (if has_error_handling code then [] else ["has_error_handling"]) ++
  (if reasonable_length code then [] else ["reasonable_length"]) ++
  (if no_placeholder code then [] else ["no_placeholder"])

/-- `score = sum(checks.values()) / len(checks)`. Python evaluates this in
binary floating point; for counts `0..5` over five checks every comparison
against `0.8` coincides with the exact rational comparison (`4/5` and the
literal `0.8` round to the same double), so the embedding uses `ℚ`. -/
def qualityScore (code : String) : ℚ :=
  ((qualityChecks code).count true : ℚ) / ((qualityChecks code).length : ℚ)

/-- `_check_quality`: `return score >= 0.8`. The method reads no attribute
of `self` (in particular not `quality_threshold`). -/
def _check_quality (self : AdvancedCodeGenius) (code : String) : Bool :=
  decide ((0.8 : ℚ) ≤ qualityScore code)

/-! ## `advanced_genius.py`: prompts -/

/-- The generation prompt of `_generate_file` (the `file_spec` dict is
embedded via its Python string rendering, taken here as an opaque string). -/
def filePrompt (file_path plan_text file_spec : String) : String :=
  "\nŞu dosyayı yaz:  " ++ file_path ++ "\n\nProje Planı:\n" ++ plan_text ++
  "\n\nDosya Özellikleri:\n" ++ file_spec ++
  "\n\nÖNEMLİ KURALLAR:\n1. Production-ready kod yaz\n2. Type hints kullan\n" ++
  "3. Docstring ekle (Google style)\n4. Error handling ekle\n5. Logging ekle\n" ++
  "6. Clean code prensiplerine uy\n7. SOLID prensipleri uygula\n" ++
  "8. Security best practices\n9. Performance optimize et\n" ++
  "10. Test edilebilir yaz\n\nSADECE KOD VER, açıklama ekleme: \n"

/-- The regeneration prompt of `_regenerate_with_feedback`. The source
f-string contains no interpolation at all: neither `file_path`, nor
`file_spec`, nor `previous_code` occurs in it, so the prompt is one fixed
generic checklist, independent of all three arguments. -/
def feedbackPrompt (file_path file_spec previous_code : String) : String :=
  "\nŞu kodu iyileştir: \n\nİyileştirmeler:\n- Eksik docstring varsa ekle\n" ++
  "- Type hints ekle\n- Error handling güçlendir\n- Daha temiz kod yaz\n" ++
  "- Best practices uygula\n\nİYİLEŞTİRİLMİŞ KOD: \n"

/-- The structure-design prompt of `_design_structure` (literal braces are
written with character escapes). -/
def structurePrompt (plan_text : String) : String :=
  "\nŞu plan için detaylı dosya yapısı oluştur:\n\n" ++ plan_text ++
  "\n\nHer dosya için şunları belirt:\n- Dosya yolu\n- Sorumluluklar\n" ++
  "- Ana fonksiyonlar/sınıflar\n- Bağımlılıklar\n\nJSON formatında ver:\n" ++
  "\x7b\n    \"path/to/file. py\": \x7b\n        \"description\": \".. .\",\n" ++
  "        \"responsibilities\": [\"... \"],\n        \"main_components\": [\"...\"],\n" ++
  "        \"dependencies\": [\"...\"]\n    \x7d\n\x7d\n"

/-- Modelled from the spec: the tail of the test-generation prompt of
`_generate_comprehensive_tests` after the embedded code is lost in the
corrupted source file; per the spec it closes the code fence and names the
target test framework and a coverage-percentage goal. -/
def testPromptTail : String :=
  "\n```\n\npytest kullan, %90 kod kapsamı hedefle.\n"

/-- The test-generation prompt of `_generate_comprehensive_tests`: the
visible source prefix embeds the target file's full `code` inside a python
code fence; the lost tail is `testPromptTail`. -/
def testPrompt (code : String) : String :=
  "\nŞu kod için kapsamlı pytest testleri yaz:\n\n```python\n" ++ code ++ testPromptTail

/-! ## `advanced_genius.py`: `_clean_code`

Source:

```
def _clean_code(self, code: str) -> str:
    code = re.sub(r'```python\n? ', '', code)
    code = re.sub(r'```\n?', '', code)
    lines = code.split('\n')
    cleaned_lines = []
    in_code = False
    for line in lines:
        if line.strip().startswith(('import ', 'from ', 'class ', 'def ', '@', '#', ' ', '\t')) or in_code:
            cleaned_lines.append(line)
            in_code = True
        elif line.strip() == '':
            cleaned_lines.append(line)
    return '\n'.join(cleaned_lines).strip()
```
-/

/-- `re.sub(r'```python\n? ', '', code)`: a left-to-right scan; at each
position the greedy optional `\n?` first tries the 11-character match
(with newline), then the 10-character one; non-overlapping matches are
removed and scanning resumes after the match. The fuel is the input length,
which bounds the number of steps. -/
def pySubPythonFence : Nat → List Char → List Char
  | 0, s => s
  | fuel + 1, s =>
    if ("```python\n ".data).isPrefixOf s then pySubPythonFence fuel (s.drop 11)
    else if ("```python ".data).isPrefixOf s then pySubPythonFence fuel (s.drop 10)
    else
      match s with
      | [] => []
      | x :: rest => x :: pySubPythonFence fuel rest

/-- `re.sub(r'```\n?', '', code)`, by the same scheme (4- then 3-character
match). -/
def pySubBareFence : Nat → List Char → List Char
  | 0, s => s
  | fuel + 1, s =>
    if ("```\n".data).isPrefixOf s then pySubBareFence fuel (s.drop 4)
    else if ("```".data).isPrefixOf s then pySubBareFence fuel (s.drop 3)
    else
      match s with
      | [] => []
      | x :: rest => x :: pySubBareFence fuel rest

/-- The tuple argument of `line.strip().startswith((...))`. -/
def codeStartTokens : List String :=
  ["import ", "from ", "class ", "def ", "@", "#", " ", "\t"]

/-- One iteration of the `for line in lines` loop of `_clean_code`: the
state is `(in_code, cleaned_lines)`. -/
def cleanLineStep (st : Bool × List String) (line : String) : Bool × List String :=
  if codeStartTokens.any (fun t => pyStartsWith (pyStripS line) t) || st.1 then
    (true, st.2 ++ [line])
  else if pyStripS line == "" then
    (st.1, st.2 ++ [line])
  else st

/-- `_clean_code`. -/
def _clean_code (code : String) : String :=
  let code1 := pySubPythonFence code.data.length code.data
  let code2 := pySubBareFence code1.length code1
  let lines := (code2.splitOn '\n').map fun l => (⟨l⟩ : String)
  let cleaned := (lines.foldl cleanLineStep (false, [])).2
  pyStripS (pyJoinLines cleaned)

/-! ## `advanced_genius.py`: `_design_structure` -/

/-- Python JSON values, as decoded by `json.loads`. -/
inductive PyJson where
  | jnull : PyJson
  | jbool : Bool → PyJson
  | jnum : Int → PyJson
  | jstr : String → PyJson
  | jarr : List PyJson → PyJson
  | jobj : List (String × PyJson) → PyJson

/-- `true` exactly on JSON objects (Python dicts). -/
def pyJsonIsObj : PyJson → Bool
  | .jobj _ => true
  | _ => false

/-- The keys of a JSON object (empty for non-objects). -/
def pyJsonObjKeys : PyJson → List String
  | .jobj l => l.map Prod.fst
  | _ => []

/-- The fallback structure assigned in the `except:` branch of
`_design_structure` (the space inside `"main. py"` is verbatim from the
source). -/
def defaultStructure : PyJson :=
  .jobj [("main. py", .jobj [("description", .jstr "Main application file")]),
         ("utils.py", .jobj [("description", .jstr "Utility functions")])]

/-- `_design_structure`, with `json.loads` embedded as a fallible decoder
`loads : String → Option PyJson` (`none` models `json.loads` raising, which
the bare `except:` catches) and the backend as `gen`. The decoded value is
returned with no shape validation; only a raising decode produces the
fallback. -/
def _design_structure (self : AdvancedCodeGenius) (loads : String → Option PyJson)
    (gen : String → String) (plan_text : String) : PyJson :=
  let structure_text := gen (structurePrompt plan_text)
  match loads structure_text with
  | some decoded => decoded
  | none => defaultStructure

/-- Modelled from Python's `json.loads` semantics on one concrete input:
the text `"[1, 2]"` is valid JSON and decodes successfully to the array
`[1, 2]` (a wrong shape for the expected dict-of-dicts, but not a decode
error); every other input is treated as raising. -/
def loadsArrayExample : String → Option PyJson := fun s =>
  if s == "[1, 2]" then some (.jarr [.jnum 1, .jnum 2]) else none

/-! ## `advanced_genius.py`: per-file synthesis and the planning loop -/

/-- `_generate_file`: one backend call on the generation prompt, cleaned by
`_clean_code`. The second component counts the backend calls made. -/
def _generate_file (self : AdvancedCodeGenius) (gen : String → String)
    (file_path file_spec plan_text : String) : String × Nat :=
  (_clean_code (gen (filePrompt file_path plan_text file_spec)), 1)

/-- `_regenerate_with_feedback`: one backend call on the (fixed) feedback
prompt, cleaned by `_clean_code`. The second component counts the backend
calls made. -/
def _regenerate_with_feedback (self : AdvancedCodeGenius) (gen : String → String)
    (file_path file_spec previous_code : String) : String × Nat :=
  (_clean_code (gen (feedbackPrompt file_path file_spec previous_code)), 1)

/-- The per-file body of the `for file_path, file_spec in structure.items()`
loop of `generate_with_planning`: generate, quality-check, and on failure
regenerate once with feedback, accepting the regenerated content with no
second quality check. Returns the content stored for the file and the
number of backend calls made. -/
def synthesizeFile (self : AdvancedCodeGenius) (gen : String → String)
    (file_path file_spec plan_text : String) : String × Nat :=
  let (code, n1) := _generate_file self gen file_path file_spec plan_text
  if _check_quality self code then (code, n1)
  else
    let (code2, n2) := _regenerate_with_feedback self gen file_path file_spec code
    (code2, n1 + n2)

/-- The Step-3 loop of `generate_with_planning`: `files = {}` and one dict
write `files[file_path] = code` per file spec. -/
def generate_with_planning_files (self : AdvancedCodeGenius) (gen : String → String)
    (plan_text : String) (structureDict : List (String × String)) : List (String × String) :=
  structureDict.foldl
    (fun files e => dictSet files e.1 (synthesizeFile self gen e.1 e.2 plan_text).1) []

/-! ## `advanced_genius.py`: `_generate_comprehensive_tests` -/

/-- The eligibility test of the loop:
`file_path.endswith('.py') and 'test_' not in file_path`. -/
def testEligible (file_path : String) : Bool :=
  pyEndsWith file_path ".py" && !(pyIn "test_" file_path)

/-- `test_path = f"tests/test_{file_path.replace('/', '_')}"`. -/
def testPath (file_path : String) : String :=
  "tests/test_" ++ pyReplaceS file_path "/" "_"

/-- `_generate_comprehensive_tests`: for every eligible entry, one backend
call on the test prompt embedding the entry's content, written into the
`test_files` dict at the derived test path. -/
def _generate_comprehensive_tests (self : AdvancedCodeGenius) (gen : String → String)
    (files : List (String × String)) : List (String × String) :=
  files.foldl
    (fun test_files e =>
      if testEligible e.1 then
        dictSet test_files (testPath e.1) (_clean_code (gen (testPrompt e.2)))
      else test_files)
    []

example : _parse_project_files "=== DOSYA: a.py ===\nx\n=== DOSYA SONU ===" = [("a.py", "x")] := by decide
example : _parse_project_files "=== DOSYA: a.py ===\nx" = [] := by decide
example : extractPath "=== DOSYA: a.py ===" = "a.py" := by decide

/-! ## Lemmas: split / join -/

theorem splitOn_not_mem (c : Char) (s : List Char) :
    ∀ l ∈ s.splitOn c, c ∉ l := by
  induction s with
  | nil => simp
  | cons x rest ih =>
    simp only [List.splitOn, List.splitOnP_cons] at ih ⊢
    split
    · rename_i hxc
      intro l hl
      rcases List.mem_cons.mp hl with rfl | hl
      · simp
      · exact ih l hl
    · rename_i hxc
      cases h : rest.splitOnP (· == c) with
      | nil => exact absurd h (List.splitOnP_ne_nil _ rest)
      | cons hd tl =>
        simp only [List.modifyHead]
        intro l hl
        rcases List.mem_cons.mp hl with rfl | hl
        · intro hmem
          rcases List.mem_cons.mp hmem with hcx | hmem
          · exact hxc (by simp [hcx])
          · exact ih hd (h ▸ List.mem_cons_self hd tl) hmem
        · exact ih l (h ▸ List.mem_cons_of_mem hd hl)

/-- String-level: `'\n'.join(text.split('\n')) == text` for every text. -/
theorem pyJoinLines_stringLines (s : String) : pyJoinLines (stringLines s) = s := by
  unfold pyJoinLines stringLines
  rw [List.map_map]
  rw [show (String.data ∘ fun l => (⟨l⟩ : String)) = id from rfl]
  rw [List.map_id]
  rw [List.intercalate_splitOn]

/-- String-level: splitting the join recovers the lines, provided every line
is newline-free and the list is nonempty. -/
theorem stringLines_pyJoinLines (ls : List String) (hne : ls ≠ [])
    (h : ∀ l ∈ ls, '\n' ∉ l.data) :
    stringLines (pyJoinLines ls) = ls := by
  unfold pyJoinLines stringLines
  rw [show (String.mk (List.intercalate ['\n'] (ls.map String.data))).data
      = List.intercalate ['\n'] (ls.map String.data) from rfl]
  rw [List.splitOn_intercalate (ls.map String.data) '\n'
      (by intro l hl; rcases List.mem_map.mp hl with ⟨a, ha, rfl⟩; exact h a ha)
      (by simpa using hne)]
  rw [List.map_map]
  rw [show ((fun l => (⟨l⟩ : String)) ∘ String.data) = id from funext fun s => rfl]
  exact List.map_id ls

/-- Every line produced by `stringLines` is newline-free. -/
theorem stringLines_no_newline (s : String) : ∀ l ∈ stringLines s, '\n' ∉ l.data := by
  intro l hl
  unfold stringLines at hl
  rcases List.mem_map.mp hl with ⟨a, ha, rfl⟩
  exact splitOn_not_mem '\n' s.data a ha

/-! ## Lemmas: dict assignment and lookup -/

theorem pyLookup_dictSet_self (d : List (String × String)) (k v : String) :
    pyLookup (dictSet d k v) k = some v := by
  induction d with
  | nil => simp [dictSet, pyLookup]
  | cons e rest ih =>
    simp only [dictSet]
    split
    · simp [pyLookup]
    · rename_i hek
      simp only [pyLookup, List.find?_cons, hek]
      exact ih

theorem pyLookup_dictSet_other (d : List (String × String)) (k v K : String)
    (h : k ≠ K) : pyLookup (dictSet d k v) K = pyLookup d K := by
  induction d with
  | nil => simp [dictSet, pyLookup, List.find?, show (k == K) = false from by simpa using h]
  | cons e rest ih =>
    simp only [dictSet]
    split
    · rename_i hek
      have he1 : e.1 = k := by simpa using hek
      simp only [pyLookup, List.find?_cons, show (k == K) = false from by simpa using h,
        show (e.1 == K) = false from by simp [he1]; exact h]
    · simp only [pyLookup, List.find?_cons]
      cases he : (e.1 == K)
      · exact ih
      · rfl

theorem dictSet_fresh (d : List (String × String)) (k v : String)
    (h : ∀ e ∈ d, e.1 ≠ k) : dictSet d k v = d ++ [(k, v)] := by
  induction d with
  | nil => simp [dictSet]
  | cons e rest ih =>
    simp only [dictSet]
    rw [if_neg (by simpa using h e (by simp))]
    rw [ih fun e' he' => h e' (List.mem_cons_of_mem _ he')]
    simp

theorem mkStartLine_no_newline (p : String) (h : '\n' ∉ p.data) :
    '\n' ∉ (mkStartLine p).data := by
  unfold mkStartLine
  rw [String.data_append, String.data_append]
  intro hmem
  rcases List.mem_append.mp hmem with hmem | hmem
  · rcases List.mem_append.mp hmem with hmem | hmem
    · exact absurd hmem (by decide)
    · exact h hmem
  · exact absurd hmem (by decide)

theorem serializeLines_no_newline (pairs : List (String × String))
    (h : ∀ e ∈ pairs, '\n' ∉ e.1.data) :
    ∀ l ∈ serializeLines pairs, '\n' ∉ l.data := by
  intro l hl
  unfold serializeLines at hl
  rcases List.mem_flatMap.mp hl with ⟨e, he, hle⟩
  unfold serializePair at hle
  rcases List.mem_cons.mp hle with rfl | hle
  · exact mkStartLine_no_newline e.1 (h e he)
  · rcases List.mem_append.mp hle with hle | hle
    · exact stringLines_no_newline e.2 l hle
    · rw [List.mem_singleton.mp hle]
      decide

/-! ## Lemmas: the parser state machine -/

/-- A line that is neither a start nor an end marker leaves `files`
unchanged (it is either accumulated into `current_content` or discarded). -/
theorem parseLine_plain_files (st : ParseState) (line : String)
    (h1 : isStartLine line = false) (h2 : isEndLine line = false) :
    (parseLine st line).files = st.files := by
  unfold parseLine
  rw [h1, h2]
  simp only [Bool.false_eq_true, if_false]
  split <;> rfl

/-- Marker-free lines never change `files`. -/
theorem foldl_parseLine_plain_files (cs : List String) :
    ∀ st : ParseState, (∀ l ∈ cs, isStartLine l = false ∧ isEndLine l = false) →
      (cs.foldl parseLine st).files = st.files := by
  induction cs with
  | nil => intro st _; rfl
  | cons l rest ih =>
    intro st h
    rw [List.foldl_cons]
    rw [ih _ fun l' hl' => h l' (List.mem_cons_of_mem _ hl')]
    exact parseLine_plain_files st l (h l (by simp)).1 (h l (by simp)).2

/-- While inside a file block with a Python-truthy path, marker-free lines
are appended to the accumulator, in order. -/
theorem foldl_parseLine_accum (cs : List String) :
    ∀ (p : String) (acc : List String) (files : List (String × String)) (rest : List String),
      p ≠ "" → (∀ l ∈ cs, isStartLine l = false ∧ isEndLine l = false) →
      (cs ++ rest).foldl parseLine ⟨some p, acc, files⟩
        = rest.foldl parseLine ⟨some p, acc ++ cs, files⟩ := by
  induction cs with
  | nil => intro p acc files rest _ _; simp
  | cons l cs ih =>
    intro p acc files rest hp h
    rw [List.cons_append, List.foldl_cons]
    have hstep : parseLine ⟨some p, acc, files⟩ l = ⟨some p, acc ++ [l], files⟩ := by
      unfold parseLine
      rw [(h l (by simp)).1, (h l (by simp)).2]
      simp [pyTruthy, hp]
    rw [hstep, ih p (acc ++ [l]) files rest hp fun l' hl' => h l' (List.mem_cons_of_mem _ hl')]
    simp

/-- Processing a start-marker line while inside a truthy file block emits the
current file with the accumulated lines and opens the new block. -/
theorem parseLine_start_in_file (p : String) (acc : List String)
    (files : List (String × String)) (line : String)
    (hp : p ≠ "") (hline : isStartLine line = true) :
    parseLine ⟨some p, acc, files⟩ line
      = ⟨some (extractPath line), [], dictSet files p (pyJoinLines acc)⟩ := by
  unfold parseLine
  rw [hline]
  simp [saveCurrent, hp]

/-- Processing a start-marker line from the `OUTSIDE` state opens the new
block and leaves `files` unchanged. -/
theorem parseLine_start_outside (acc : List String) (files : List (String × String))
    (line : String) (hline : isStartLine line = true) :
    parseLine ⟨none, acc, files⟩ line = ⟨some (extractPath line), [], files⟩ := by
  unfold parseLine
  rw [hline]
  simp [saveCurrent]

/-- The end-marker line is not a start marker and is an end marker. -/
theorem endTag_markers : isStartLine endTag = false ∧ isEndLine endTag = true := by decide

/-- Processing the end-marker line while inside a truthy file block emits the
current file and returns the machine to the `OUTSIDE` state. -/
theorem parseLine_end_in_file (p : String) (acc : List String)
    (files : List (String × String)) (hp : p ≠ "") :
    parseLine ⟨some p, acc, files⟩ endTag
      = ⟨none, [], dictSet files p (pyJoinLines acc)⟩ := by
  unfold parseLine
  rw [endTag_markers.1, endTag_markers.2]
  simp [saveCurrent, hp]

/-- Consuming one complete serialized block from the `OUTSIDE` state records
the block's path with its joined content and returns to `OUTSIDE`. -/
theorem foldl_parseLine_block (p c : String) (acc : List String)
    (files : List (String × String)) (rest : List String)
    (hp : PathOk p) (hc : ContentOk c) :
    (serializePair (p, c) ++ rest).foldl parseLine ⟨none, acc, files⟩
      = rest.foldl parseLine ⟨none, [], dictSet files p c⟩ := by
  obtain ⟨hp1, hp2, hp3, _⟩ := hp
  show (mkStartLine p :: (stringLines c ++ [endTag]) ++ rest).foldl parseLine _ = _
  rw [List.cons_append, List.foldl_cons,
    parseLine_start_outside acc files (mkStartLine p) hp3, hp2, List.append_assoc,
    foldl_parseLine_accum (stringLines c) p [] files ([endTag] ++ rest) hp1 hc,
    List.singleton_append, List.foldl_cons, List.nil_append,
    parseLine_end_in_file p (stringLines c) files hp1, pyJoinLines_stringLines]

/-- Parsing the serialization of a list of pairs folds the pairs into the
dict with Python assignment semantics. -/
theorem foldl_parseLine_serializeLines (pairs : List (String × String)) :
    ∀ files : List (String × String),
      (∀ e ∈ pairs, PathOk e.1) → (∀ e ∈ pairs, ContentOk e.2) →
      ((serializeLines pairs).foldl parseLine ⟨none, [], files⟩).files
        = pairs.foldl (fun fs e => dictSet fs e.1 e.2) files := by
  induction pairs with
  | nil => intro files _ _; rfl
  | cons e rest ih =>
    intro files hp hc
    have : serializeLines (e :: rest) = serializePair e ++ serializeLines rest := by
      simp [serializeLines]
    rw [this, foldl_parseLine_block e.1 e.2 [] files (serializeLines rest)
      (hp e (by simp)) (hc e (by simp))]
    rw [List.foldl_cons]
    exact ih _ (fun e' he' => hp e' (List.mem_cons_of_mem _ he'))
      (fun e' he' => hc e' (List.mem_cons_of_mem _ he'))

/-- Folding fresh, pairwise-distinct keys into a dict appends them in
order. -/
theorem foldl_dictSet_fresh (pairs : List (String × String)) :
    ∀ files : List (String × String),
      (pairs.map Prod.fst).Nodup →
      (∀ e ∈ pairs, ∀ e' ∈ files, e'.1 ≠ e.1) →
      pairs.foldl (fun fs e => dictSet fs e.1 e.2) files = files ++ pairs := by
  induction pairs with
  | nil => intro files _ _; simp
  | cons e rest ih =>
    intro files hnodup hfresh
    rw [List.foldl_cons, dictSet_fresh files e.1 e.2 (hfresh e (by simp) ·)]
    rw [List.map_cons, List.nodup_cons] at hnodup
    rw [ih (files ++ [e]) hnodup.2]
    · simp
    · intro e' he' f hf
      rcases List.mem_append.mp hf with hf | hf
      · exact hfresh e' (List.mem_cons_of_mem _ he') f hf
      · rw [List.mem_singleton.mp hf]
        intro hfe
        exact hnodup.1 (hfe ▸ List.mem_map_of_mem Prod.fst he')

/-! ## Claim C1 -/

/-- C1, counterexample: the claim says a stream that ends while the parser is
inside a file block still emits the final file with the accumulated lines.
On the stream `"=== DOSYA: a.py ===\nx"` the code returns the empty bundle:
the final file `a.py` (with accumulated line `x`) is discarded, because the
loop of `_parse_project_files` has no flush after the last line. -/
theorem C1_counterexample :
    _parse_project_files "=== DOSYA: a.py ===\nx" = [] ∧
      pyLookup (_parse_project_files "=== DOSYA: a.py ===\nx") "a.py" = none := by
  constructor <;> decide

/-- C1, amended: for every input stream that ends while the parser is inside
a file block (a final start-marker line followed only by ordinary lines up
to end of stream), the final file is discarded, not emitted: the returned
bundle is exactly the bundle of the stream truncated at that last start
marker. -/
theorem C1_amended (pre : List String) (p : String) (cs : List String)
    (hstart : isStartLine (mkStartLine p) = true)
    (hcs : ∀ l ∈ cs, isStartLine l = false ∧ isEndLine l = false)
    (hnl : ∀ l ∈ pre ++ mkStartLine p :: cs, '\n' ∉ l.data) :
    _parse_project_files (pyJoinLines (pre ++ mkStartLine p :: cs))
      = _parse_project_files (pyJoinLines (pre ++ [mkStartLine p])) := by
  unfold _parse_project_files
  rw [stringLines_pyJoinLines (pre ++ mkStartLine p :: cs) (by simp) hnl]
  rw [stringLines_pyJoinLines (pre ++ [mkStartLine p]) (by simp)
    (by intro l hl
        refine hnl l ?_
        rcases List.mem_append.mp hl with hl | hl
        · exact List.mem_append.mpr (Or.inl hl)
        · rw [List.mem_singleton.mp hl]
          exact List.mem_append.mpr (Or.inr (by simp)))]
  rw [List.foldl_append, List.foldl_append, List.foldl_cons, List.foldl_cons,
    List.foldl_nil]
  exact foldl_parseLine_plain_files cs _ hcs

/-- C1, witness for the amended theorem at a concrete stream. -/
theorem C1_amended_witness :
    _parse_project_files (pyJoinLines ([] ++ mkStartLine "a.py" :: ["x"]))
      = _parse_project_files (pyJoinLines ([] ++ [mkStartLine "a.py"])) :=
  C1_amended [] "a.py" ["x"] (by decide) (by decide) (by decide)

/-! ## Claim C2 -/

/-- C2, counterexample: the claim says parsing the serialization yields
content byte-identical to the original after leading/trailing blank-line
trimming. For the single pair `("a.py", "\nx")` (whose lines `""` and `"x"`
are not markers) the parser returns the content `"\nx"` verbatim — the
leading blank line is *not* trimmed, so the recovered content differs from
the trimmed original `"x"`. -/
theorem C2_counterexample :
    _parse_project_files (serializeBundle [("a.py", "\nx")]) = [("a.py", "\nx")] ∧
      ("\nx" : String) ≠ "x" := by
  constructor <;> decide

/-- C2, amended: for any set of N (path, content) pairs with distinct,
marker-safe paths whose content lines never look like a start or end marker,
serializing them with the delimited protocol (start marker line, content
lines, end marker line for each pair) and parsing the result yields exactly
those N pairs, each content byte-identical to the original, with no
blank-line trimming applied. -/
theorem C2_amended (pairs : List (String × String))
    (hpath : ∀ e ∈ pairs, PathOk e.1)
    (hcontent : ∀ e ∈ pairs, ContentOk e.2)
    (hnodup : (pairs.map Prod.fst).Nodup) :
    _parse_project_files (serializeBundle pairs) = pairs := by
  cases pairs with
  | nil => decide
  | cons e rest =>
    unfold _parse_project_files serializeBundle initParseState
    rw [stringLines_pyJoinLines (serializeLines (e :: rest))
      (by simp [serializeLines, serializePair])
      (serializeLines_no_newline _ fun e' he' => (hpath e' he').2.2.2)]
    rw [foldl_parseLine_serializeLines (e :: rest) [] hpath hcontent]
    rw [foldl_dictSet_fresh (e :: rest) [] hnodup (by simp)]
    simp

/-- C2, witness: round trip on two concrete files, one with empty content. -/
theorem C2_amended_witness :
    _parse_project_files (serializeBundle [("a.py", "print(1)"), ("src/b.py", "")])
      = [("a.py", "print(1)"), ("src/b.py", "")] :=
  C2_amended [("a.py", "print(1)"), ("src/b.py", "")] (by decide) (by decide) (by decide)

/-! ## Claim C3 -/

/-- C3: whenever a start-marker line arrives while the parser is inside a
file block (Python-truthy `current_file = p` with accumulated lines `acc`),
the current file is emitted into the bundle with exactly the accumulated
lines joined by newlines — nothing is discarded — and the machine starts
accumulating for the path extracted from the new marker with an empty
accumulator. -/
theorem C3_start_marker_emits (p : String) (acc : List String)
    (files : List (String × String)) (line : String)
    (hp : p ≠ "") (hline : isStartLine line = true) :
    parseLine ⟨some p, acc, files⟩ line
        = ⟨some (extractPath line), [], dictSet files p (pyJoinLines acc)⟩ ∧
      pyLookup (parseLine ⟨some p, acc, files⟩ line).files p
        = some (pyJoinLines acc) := by
  refine ⟨parseLine_start_in_file p acc files line hp hline, ?_⟩
  rw [parseLine_start_in_file p acc files line hp hline]
  exact pyLookup_dictSet_self files p (pyJoinLines acc)

/-- C3, witness at a concrete in-file state and marker line. -/
theorem C3_start_marker_emits_witness :
    parseLine ⟨some "a.py", ["x", "y"], []⟩ (mkStartLine "b.py")
        = ⟨some (extractPath (mkStartLine "b.py")), [],
            dictSet [] "a.py" (pyJoinLines ["x", "y"])⟩ ∧
      pyLookup (parseLine ⟨some "a.py", ["x", "y"], []⟩ (mkStartLine "b.py")).files "a.py"
        = some (pyJoinLines ["x", "y"]) :=
  C3_start_marker_emits "a.py" ["x", "y"] [] (mkStartLine "b.py") (by decide) (by decide)

/-! ## Claim C4 -/

/-- C4: a stream of complete blocks in which the path `p` occurs twice
(around any other blocks with distinct paths different from `p`) parses to
a bundle with exactly one entry for `p`, whose content is the second block's
content, located at the position established by the first occurrence (here:
before all the intervening entries). -/
theorem C4_duplicate_path (p c1 c2 : String) (mid : List (String × String))
    (hp : PathOk p) (hc1 : ContentOk c1) (hc2 : ContentOk c2)
    (hmidp : ∀ e ∈ mid, PathOk e.1) (hmidc : ∀ e ∈ mid, ContentOk e.2)
    (hmidnodup : (mid.map Prod.fst).Nodup)
    (hmidne : ∀ e ∈ mid, e.1 ≠ p) :
    _parse_project_files (serializeBundle ((p, c1) :: mid ++ [(p, c2)]))
      = (p, c2) :: mid := by
  unfold _parse_project_files serializeBundle initParseState
  rw [stringLines_pyJoinLines _ (by simp [serializeLines, serializePair])
    (serializeLines_no_newline _ ?hnl)]
  case hnl =>
    intro e he
    rcases List.mem_cons.mp he with rfl | he
    · exact hp.2.2.2
    · rcases List.mem_append.mp he with he | he
      · exact (hmidp e he).2.2.2
      · rw [List.mem_singleton.mp he]
        exact hp.2.2.2
  rw [foldl_parseLine_serializeLines ((p, c1) :: mid ++ [(p, c2)]) [] ?hps ?hcs]
  case hps =>
    intro e he
    rcases List.mem_cons.mp he with rfl | he
    · exact hp
    · rcases List.mem_append.mp he with he | he
      · exact hmidp e he
      · rw [List.mem_singleton.mp he]; exact hp
  case hcs =>
    intro e he
    rcases List.mem_cons.mp he with rfl | he
    · exact hc1
    · rcases List.mem_append.mp he with he | he
      · exact hmidc e he
      · rw [List.mem_singleton.mp he]; exact hc2
  rw [List.foldl_append]
  have hinner : List.foldl (fun fs e => dictSet fs e.1 e.2) [] ((p, c1) :: mid)
      = (p, c1) :: mid := by
    rw [List.foldl_cons]
    rw [show dictSet [] p c1 = [(p, c1)] from rfl]
    rw [foldl_dictSet_fresh mid [(p, c1)] hmidnodup
      (by intro e he e' he'
          rw [List.mem_singleton.mp he']
          exact fun h => hmidne e he h.symm)]
    simp
  rw [hinner]
  show dictSet ((p, c1) :: mid) p c2 = (p, c2) :: mid
  simp [dictSet]

/-- C4, witness at a concrete stream with duplicate path `a.py`. -/
theorem C4_duplicate_path_witness :
    _parse_project_files
        (serializeBundle [("a.py", "old"), ("b.py", "y"), ("a.py", "new")])
      = [("a.py", "new"), ("b.py", "y")] :=
  C4_duplicate_path "a.py" "old" "new" [("b.py", "y")]
    (by decide) (by decide) (by decide) (by decide) (by decide) (by decide) (by decide)

/-! ## Lemmas: dict-building folds -/

theorem pyLookup_dictSet_ne_none (d : List (String × String)) (k v K : String)
    (h : pyLookup (dictSet d k v) K ≠ none) : K = k ∨ pyLookup d K ≠ none := by
  by_cases hk : K = k
  · exact Or.inl hk
  · right
    rw [← pyLookup_dictSet_other d k v K fun h' => hk h'.symm]
    exact h

theorem foldl_dictSetIf_preserve {α : Type} (P : α → Bool) (key val : α → String)
    (l : List α) :
    ∀ (init : List (String × String)) (K : String),
      (∀ e ∈ l, P e = true → key e ≠ K) →
      pyLookup (l.foldl (fun fs e => if P e then dictSet fs (key e) (val e) else fs) init) K
        = pyLookup init K := by
  induction l with
  | nil => intro init K _; rfl
  | cons e rest ih =>
    intro init K h
    rw [List.foldl_cons, ih _ K fun e' he' => h e' (List.mem_cons_of_mem _ he')]
    rcases hP : P e with _ | _
    · rfl
    · exact pyLookup_dictSet_other init (key e) (val e) K (h e (by simp) hP)

theorem foldl_dictSetIf_write {α : Type} (P : α → Bool) (key val : α → String)
    (l₁ l₂ : List α) (e : α) (init : List (String × String))
    (hP : P e = true)
    (hafter : ∀ e' ∈ l₂, P e' = true → key e' ≠ key e) :
    pyLookup ((l₁ ++ e :: l₂).foldl
        (fun fs e => if P e then dictSet fs (key e) (val e) else fs) init) (key e)
      = some (val e) := by
  rw [List.foldl_append, List.foldl_cons,
    foldl_dictSetIf_preserve P key val l₂ _ _ hafter, if_pos hP]
  exact pyLookup_dictSet_self _ (key e) (val e)

theorem foldl_dictSetIf_origin {α : Type} (P : α → Bool) (key val : α → String)
    (l : List α) :
    ∀ (init : List (String × String)) (K : String),
      pyLookup (l.foldl (fun fs e => if P e then dictSet fs (key e) (val e) else fs) init) K
          ≠ none →
      pyLookup init K ≠ none ∨ ∃ e ∈ l, P e = true ∧ K = key e := by
  induction l with
  | nil => intro init K h; exact Or.inl h
  | cons e rest ih =>
    intro init K h
    rw [List.foldl_cons] at h
    rcases ih _ K h with h' | ⟨e', he', hP', hK'⟩
    · rcases hP : P e with _ | _
      · rw [hP] at h'
        exact Or.inl h'
      · rw [hP] at h'
        rcases pyLookup_dictSet_ne_none init (key e) (val e) K (by simpa using h') with h'' | h'' <;>
          [exact Or.inr ⟨e, by simp, hP, h''⟩; exact Or.inl h'']
    · exact Or.inr ⟨e', List.mem_cons_of_mem _ he', hP', hK'⟩

/-! ## Lemmas: substring containment -/

theorem pyInAux_eq_true_iff (n : List Char) (h : List Char) :
    pyInAux n h = true ↔ n <:+: h := by
  induction h with
  | nil =>
    simp only [pyInAux, List.isEmpty_iff, List.infix_nil]
  | cons c t ih =>
    simp only [pyInAux, Bool.or_eq_true, List.isPrefixOf_iff_prefix, ih]
    exact (List.infix_cons_iff).symm

theorem pyIn_eq_true_iff (needle hay : String) :
    pyIn needle hay = true ↔ needle.data <:+: hay.data :=
  pyInAux_eq_true_iff needle.data hay.data

/-- The quality gate, reduced to a count: `score >= 0.8` over five checks is
exactly `4 ≤ count of true checks`. This shared helper also makes the gate
evaluable on concrete inputs without rational arithmetic. -/
theorem check_quality_eq_count (self : AdvancedCodeGenius) (code : String) :
    _check_quality self code = decide (4 ≤ (qualityChecks code).count true) := by
  have hlen : ((qualityChecks code).length : ℚ) = 5 := by
    rw [show (qualityChecks code).length = 5 from rfl]
    norm_num
  rw [_check_quality, decide_eq_decide, qualityScore, hlen,
    le_div_iff₀ (by norm_num : (0 : ℚ) < 5),
    show (0.8 : ℚ) * 5 = ((4 : ℕ) : ℚ) from by norm_num]
  exact Nat.cast_le

/-! ## Claim C5 -/

/-- C5: for every input string, `_check_quality` evaluates exactly the five
boolean predicates of `qualityChecks` (documentation marker, type-annotation
marker, error-handling marker, length greater than 100 characters, absence
of TODO/FIXME), computes the score as the count of true predicates divided
by 5, and passes if and only if the score is at least `0.8`, i.e. if and
only if at least 4 of the 5 predicates hold. (Python computes the score in
binary floating point; for counts `0..5` the comparisons against `0.8`
agree with the exact rational ones used here.) -/
theorem C5_quality_check (self : AdvancedCodeGenius) (code : String) :
    qualityChecks code
        = [has_docstrings code, has_type_hints code, has_error_handling code,
            reasonable_length code, no_placeholder code] ∧
      qualityScore code = ((qualityChecks code).count true : ℚ) / 5 ∧
      (_check_quality self code = true ↔ (0.8 : ℚ) ≤ qualityScore code) ∧
      (_check_quality self code = true ↔ 4 ≤ (qualityChecks code).count true) := by
  have hlen : ((qualityChecks code).length : ℚ) = 5 := by
    rw [show (qualityChecks code).length = 5 from rfl]
    norm_num
  refine ⟨rfl, ?_, ?_, ?_⟩
  · rw [qualityScore, hlen]
  · rw [_check_quality]
    exact decide_eq_true_iff
  · rw [check_quality_eq_count]
    exact decide_eq_true_iff

/-! ## Claim C6 -/

/-- C6: for every file spec, the per-file step of `generate_with_planning`
issues at most 2 backend calls (exactly 1 when the quality check passes,
exactly 2 when it fails), the regenerated content is accepted without a
second quality check (the failure case returns the regeneration output
unconditionally), and the planning loop places exactly one content string
per file spec into the result dict. -/
theorem C6_bounded_retry (self : AdvancedCodeGenius) (gen : String → String)
    (fp spec plan : String) :
    (synthesizeFile self gen fp spec plan).2 ≤ 2 ∧
      (_check_quality self (_generate_file self gen fp spec plan).1 = true →
        synthesizeFile self gen fp spec plan
          = ((_generate_file self gen fp spec plan).1, 1)) ∧
      (_check_quality self (_generate_file self gen fp spec plan).1 = false →
        synthesizeFile self gen fp spec plan
          = ((_regenerate_with_feedback self gen fp spec
              (_generate_file self gen fp spec plan).1).1, 2)) ∧
      (∀ structureDict : List (String × String),
        (structureDict.map Prod.fst).Nodup →
        ∀ e ∈ structureDict,
          pyLookup (generate_with_planning_files self gen plan structureDict) e.1
            = some (synthesizeFile self gen e.1 e.2 plan).1) := by
  refine ⟨?_, ?_, ?_, ?_⟩
  · rw [synthesizeFile]
    rcases h : _check_quality self (_generate_file self gen fp spec plan).1 with _ | _ <;>
      simp [_generate_file, _regenerate_with_feedback] at h ⊢ <;> simp [h]
  · intro h
    rw [synthesizeFile]
    simp only [_generate_file, _regenerate_with_feedback] at h ⊢
    simp [h]
  · intro h
    rw [synthesizeFile]
    simp only [_generate_file, _regenerate_with_feedback] at h ⊢
    simp [h]
  · intro structureDict hnodup e he
    rcases List.append_of_mem he with ⟨l₁, l₂, rfl⟩
    have hnotin : e.1 ∉ l₂.map Prod.fst := by
      rw [List.map_append, List.map_cons] at hnodup
      exact (List.nodup_cons.mp (List.Nodup.of_append_right hnodup)).1
    have hkey : pyLookup
        ((l₁ ++ e :: l₂).foldl
          (fun fs x => if (fun _ : String × String => true) x then
            dictSet fs ((fun x : String × String => x.1) x)
              ((fun x : String × String => (synthesizeFile self gen x.1 x.2 plan).1) x)
          else fs) [])
        ((fun x : String × String => x.1) e)
        = some ((fun x : String × String => (synthesizeFile self gen x.1 x.2 plan).1) e) :=
      foldl_dictSetIf_write (fun _ => true) (fun x => x.1)
        (fun x => (synthesizeFile self gen x.1 x.2 plan).1) l₁ l₂ e [] rfl
        (by intro e' he' _ hk
            have hk' : e'.1 = e.1 := hk
            exact hnotin (hk' ▸ List.mem_map_of_mem Prod.fst he'))
    exact hkey

/-- C6, witness: with a backend that always returns the empty string the
quality check fails, so the per-file step makes exactly 2 calls and stores
the (empty) regenerated content without re-checking it. -/
theorem C6_bounded_retry_witness :
    synthesizeFile mkAdvancedCodeGenius (fun _ => "") "a.py" "d" "p" = ("", 2) ∧
      (synthesizeFile mkAdvancedCodeGenius (fun _ => "") "a.py" "d" "p").2 ≤ 2 ∧
      pyLookup (generate_with_planning_files mkAdvancedCodeGenius (fun _ => "") "p"
          [("a.py", "d")]) "a.py"
        = some (synthesizeFile mkAdvancedCodeGenius (fun _ => "") "a.py" "d" "p").1 := by
  have h := C6_bounded_retry mkAdvancedCodeGenius (fun _ => "") "a.py" "d" "p"
  refine ⟨?_, h.1, h.2.2.2 [("a.py", "d")] (by decide) ("a.py", "d") (by decide)⟩
  rw [h.2.2.1 (by rw [check_quality_eq_count]; decide)]
  decide

/-! ## Claim C7 -/

/-- C7, counterexample: the claim says any response whose structured
decoding fails — including one of the wrong shape — yields the fixed
default structure. The response `"[1, 2]"` is valid JSON of the wrong shape
(an array, not a dict of dicts); `json.loads` succeeds on it, so
`_design_structure` returns the array itself, not the default structure and
not a dict at all. -/
theorem C7_counterexample :
    _design_structure mkAdvancedCodeGenius loadsArrayExample (fun _ => "[1, 2]") "plan"
        = PyJson.jarr [PyJson.jnum 1, PyJson.jnum 2] ∧
      pyJsonIsObj (_design_structure mkAdvancedCodeGenius loadsArrayExample
          (fun _ => "[1, 2]") "plan") = false ∧
      _design_structure mkAdvancedCodeGenius loadsArrayExample (fun _ => "[1, 2]") "plan"
        ≠ defaultStructure := by
  refine ⟨rfl, rfl, ?_⟩
  intro h
  rw [show _design_structure mkAdvancedCodeGenius loadsArrayExample
      (fun _ => "[1, 2]") "plan" = PyJson.jarr [PyJson.jnum 1, PyJson.jnum 2] from rfl,
    defaultStructure] at h
  exact PyJson.noConfusion h

/-- C7, amended: whenever `json.loads` raises (malformed JSON or an empty
response — modelled by the decoder returning `none`), `_design_structure`
returns the fixed default structure — a non-empty dict consisting of a main
entry-point file and a utilities file — and propagates no error; a response
that is valid JSON of the wrong shape is instead returned as-is without
validation. -/
theorem C7_amended (self : AdvancedCodeGenius) (loads : String → Option PyJson)
    (gen : String → String) (plan_text : String)
    (h : loads (gen (structurePrompt plan_text)) = none) :
    _design_structure self loads gen plan_text = defaultStructure ∧
      pyJsonIsObj defaultStructure = true ∧
      pyJsonObjKeys defaultStructure = ["main. py", "utils.py"] := by
  refine ⟨?_, rfl, rfl⟩
  rw [_design_structure]
  rw [h]

/-- C7, witness: a decoder that always raises yields the default. -/
theorem C7_amended_witness :
    _design_structure mkAdvancedCodeGenius (fun _ => none) (fun _ => "") ""
        = defaultStructure ∧
      pyJsonIsObj defaultStructure = true ∧
      pyJsonObjKeys defaultStructure = ["main. py", "utils.py"] :=
  C7_amended mkAdvancedCodeGenius (fun _ => none) (fun _ => "") "" rfl

/-! ## Claim C8 -/

/-- C8, counterexample: the claim says the regeneration prompt lists the
specific qualities missing from the previous attempt. The two previous
contents `"TODO"` (all five checks fail) and `"\"\"\"x\"\"\""` (the
docstring and placeholder checks pass) have different sets of failed
checks, yet `_regenerate_with_feedback` builds the identical prompt for
both — and that prompt does not even contain the failing token `TODO`. -/
theorem C8_counterexample :
    feedbackPrompt "a.py" "spec" "TODO" = feedbackPrompt "b.py" "other" "\"\"\"x\"\"\"" ∧
      failedChecks "TODO" ≠ failedChecks "\"\"\"x\"\"\"" ∧
      pyIn "TODO" (feedbackPrompt "a.py" "spec" "TODO") = false := by
  refine ⟨rfl, by decide, by decide⟩

/-- C8, amended: the regeneration prompt built by `_regenerate_with_feedback`
is one fixed generic improvement checklist, identical for every file path,
file spec and previous content — it is not derived from the failed quality
predicates of the previous attempt and does not embed the previous code. -/
theorem C8_amended (fp1 fp2 fs1 fs2 prev1 prev2 : String) :
    feedbackPrompt fp1 fs1 prev1 = feedbackPrompt fp2 fs2 prev2 := rfl

/-! ## Claim C9 -/

/-- C9, counterexample: the claim says every eligible entry receives exactly
one companion test entry whose generation prompt embeds that entry's
content. The two eligible paths `a/b.py` and `a_b.py` flatten to the same
derived path `tests/test_a_b.py`, so the map of companions has a single
entry (generated from the later file's content) for two eligible source
entries. -/
theorem C9_counterexample :
    _generate_comprehensive_tests mkAdvancedCodeGenius (fun s => s)
        [("a/b.py", "AAA111"), ("a_b.py", "BBB222")]
      = [("tests/test_a_b.py", _clean_code (testPrompt "BBB222"))] ∧
      (([("a/b.py", "AAA111"), ("a_b.py", "BBB222")] : List (String × String)).filter
          fun e => testEligible e.1).length = 2 := by
  constructor
  · rfl
  · decide

/-- C9, amended: for every entry of the generated file map whose path ends
in `.py` and does not contain `test_`, **provided no other eligible entry
flattens to the same derived path**, the test-generation step produces
exactly one companion at `tests/test_` + the path with `/` replaced by `_`,
whose generation prompt embeds the entry's full content; when two eligible
paths collide after flattening, the later overwrites the earlier. Every key
of the companion map is derived from some eligible entry (so entries that
are test files receive no companion), and every test prompt embeds the
content it is generated from. -/
theorem C9_tests (self : AdvancedCodeGenius) (gen : String → String)
    (files : List (String × String)) (hnodup : (files.map Prod.fst).Nodup) :
    (∀ e ∈ files, testEligible e.1 = true →
        (∀ e' ∈ files, testEligible e'.1 = true → e'.1 ≠ e.1 → testPath e'.1 ≠ testPath e.1) →
        pyLookup (_generate_comprehensive_tests self gen files) (testPath e.1)
          = some (_clean_code (gen (testPrompt e.2)))) ∧
      (∀ K, pyLookup (_generate_comprehensive_tests self gen files) K ≠ none →
        ∃ e ∈ files, testEligible e.1 = true ∧ K = testPath e.1) ∧
      (∀ c, pyIn c (testPrompt c) = true) := by
  refine ⟨?_, ?_, ?_⟩
  · intro e he hel hcol
    rcases List.append_of_mem he with ⟨l₁, l₂, rfl⟩
    have hnotin : e.1 ∉ l₂.map Prod.fst := by
      rw [List.map_append, List.map_cons] at hnodup
      exact (List.nodup_cons.mp (List.Nodup.of_append_right hnodup)).1
    exact foldl_dictSetIf_write (fun x => testEligible x.1) (fun x => testPath x.1)
      (fun x => _clean_code (gen (testPrompt x.2))) l₁ l₂ e [] hel
      (by intro e' he' hel' hk
          refine hcol e' (List.mem_append.mpr (Or.inr (List.mem_cons_of_mem _ he'))) hel'
            ?_ hk
          intro h1
          exact hnotin (h1 ▸ List.mem_map_of_mem Prod.fst he'))
  · intro K h
    unfold _generate_comprehensive_tests at h
    rcases foldl_dictSetIf_origin (fun x : String × String => testEligible x.1)
        (fun x : String × String => testPath x.1)
        (fun x : String × String => _clean_code (gen (testPrompt x.2))) files [] K h
      with h' | h'
    · exact absurd rfl h'
    · exact h'
  · intro c
    rw [pyIn_eq_true_iff, testPrompt]
    rw [show ("\nŞu kod için kapsamlı pytest testleri yaz:\n\n```python\n" ++ c
        ++ testPromptTail).data
      = "\nŞu kod için kapsamlı pytest testleri yaz:\n\n```python\n".data ++ c.data
        ++ testPromptTail.data from by
        rw [String.data_append, String.data_append]]
    exact List.infix_append _ _ _

/-- C9, witness for the amended theorem: a single eligible file receives
exactly one companion at the flattened test path. -/
theorem C9_tests_witness :
    pyLookup (_generate_comprehensive_tests mkAdvancedCodeGenius (fun s => s)
        [("src/a.py", "c0")]) (testPath "src/a.py")
      = some (_clean_code ((fun s : String => s) (testPrompt "c0"))) :=
  (C9_tests mkAdvancedCodeGenius (fun s => s) [("src/a.py", "c0")] (by decide)).1
    ("src/a.py", "c0") (by decide) (by decide) (by decide)

/-! ## Claim C10 -/

/-- C10: the result of `_check_quality` and the whole per-file synthesis
step (content and number of backend calls) are independent of the
constructor-set `quality_threshold` and `max_retries` attributes: two
instances that differ in both fields behave identically — the quality gate
compares against the constant `0.8` and the retry path is the single fixed
regeneration, so neither field influences gating or retry behaviour. -/
theorem C10_config_independence (a b : AdvancedCodeGenius) (code : String)
    (gen : String → String) (fp spec plan : String)
    (h1 : a.quality_threshold ≠ b.quality_threshold)
    (h2 : a.max_retries ≠ b.max_retries) :
    _check_quality a code = _check_quality b code ∧
      synthesizeFile a gen fp spec plan = synthesizeFile b gen fp spec plan :=
  ⟨rfl, rfl⟩

/-- C10, witness: the default instance (`0.9`, `3`) and a very different one
(`0.5`, `7`) agree on a concrete input. -/
theorem C10_config_independence_witness :
    _check_quality ⟨0.9, 3⟩ "x" = _check_quality ⟨0.5, 7⟩ "x" ∧
      synthesizeFile ⟨0.9, 3⟩ (fun _ => "") "a" "b" "c"
        = synthesizeFile ⟨0.5, 7⟩ (fun _ => "") "a" "b" "c" :=
  C10_config_independence ⟨0.9, 3⟩ ⟨0.5, 7⟩ "x" (fun _ => "") "a" "b" "c"
    (by norm_num) (by norm_num)
